import Mathlib

/-!
Shallow embedding of the `ecs_ai_compliance` event-processing and
metrics-aggregation pipeline (src/constants.rs, src/components.rs,
src/ecs.rs, src/metrics.rs, src/main.rs).

Modelling conventions:
* Rust `u8`/`u16`/`u32`/`u64`/`usize` values are `Nat`; a `% 2^w` is written
  exactly where the source operation could wrap (the `score += k` additions in
  `risk_assessment_system`).  Bit operations `&`, `|`, `!MASK` on `u8` become
  `&&&`, `|||` with the 8-bit complement of the mask written as a literal.
* `f64` quantities (`avg_data_sensitivity`, `processing_rate`,
  `compliance_percentage`, the historical rates) are modelled by exact rational
  arithmetic (`ℚ`); division by zero is total in `ℚ` as `0`.
* The fixed `[usize; 5]` arrays become `Fin 5 → Nat`; indexing them with an
  out-of-range event field would panic in Rust, so `collect_metrics` is
  `Option`-valued and returns `none` exactly when an index is out of range.
* The ECS world systems loop over all entities and update each independently,
  so they are embedded as per-event functions mapped over a batch (a `List`).
* Randomness in `generate_ai_events` is modelled by quantifying over the
  generated batches; the generator's output ranges (`0..5`, `0..100`) become
  the well-formedness predicate `wfRaw`.
-/

namespace ECSAI

/-- Bit flags for compliance statuses (src/constants.rs). -/
def EU_ACT_COMPLIANT : Nat := 1

/-- GDPR compliance bit (src/constants.rs). -/
def GDPR_COMPLIANT : Nat := 2

/-- Internal-policy compliance bit (src/constants.rs). -/
def INTERNAL_POLICY_COMPLIANT : Nat := 4

/-- Risk-factor bit flags (src/constants.rs). -/
def RISK_EU_ACT : Nat := 1

/-- GDPR risk factor bit. -/
def RISK_GDPR : Nat := 2

/-- Internal-policy risk factor bit. -/
def RISK_INTERNAL : Nat := 4

/-- High-sensitivity-data risk factor bit. -/
def RISK_SENSITIVE_DATA : Nat := 8

/-- Public-model risk factor bit. -/
def RISK_PUBLIC_MODEL : Nat := 16

/-- Component representing an AI service event (src/components.rs); the two
index fields are `u8` indices into the static name/vendor arrays. -/
structure AIService where
  name_idx : Nat
  vendor_idx : Nat
  deriving Repr, DecidableEq

/-- Component representing the usage details of an AI event
(src/components.rs); `data_sensitivity` is on a 0-100 scale. -/
structure Usage where
  department_idx : Nat
  data_sensitivity : Nat
  deriving Repr, DecidableEq

/-- Compliance status bit flags (`u8`) of one event (src/components.rs). -/
structure ComplianceStatus where
  flags : Nat
  deriving Repr, DecidableEq

/-- Risk assessment component (src/components.rs): `score : u8` on 0-100,
`factor_flags : u16` bit flags. -/
structure RiskAssessment where
  score : Nat
  factor_flags : Nat
  deriving Repr, DecidableEq

/-- Per-event body of `eu_ai_act_system` (src/ecs.rs): clears the EU-Act bit
for the high-risk vendor (index 0) with sensitivity above 70, sets it
otherwise.  `flags &= !EU_ACT_COMPLIANT` on `u8` is `&&& 254`. -/
def eu_ai_act_system (service : AIService) (usage : Usage) (flags : Nat) : Nat :=
  let high_risk_vendor_idx : Nat := 0
  let is_high_risk := service.vendor_idx = high_risk_vendor_idx
  if is_high_risk ∧ usage.data_sensitivity > 70 then
    flags &&& 254
  else
    flags ||| EU_ACT_COMPLIANT

/-- Per-event body of `gdpr_system` (src/ecs.rs): sensitivity below 50 sets
the GDPR bit, otherwise clears it (`&= !GDPR_COMPLIANT` on `u8` is `&&& 253`). -/
def gdpr_system (usage : Usage) (flags : Nat) : Nat :=
  if usage.data_sensitivity < 50 then
    flags ||| GDPR_COMPLIANT
  else
    flags &&& 253

/-- Fixed allow-list of approved service indices for finance
(`approved_services` in `internal_policy_system`, src/ecs.rs). -/
def approved_services : List Nat := [1, 3]

/-- Per-event body of `internal_policy_system` (src/ecs.rs): for the finance
department (index 2) the bit is set iff the service is approved
(`&= !INTERNAL_POLICY_COMPLIANT` on `u8` is `&&& 251`); other departments
always get the bit set. -/
def internal_policy_system (service : AIService) (usage : Usage) (flags : Nat) : Nat :=
  let finance_idx : Nat := 2
  if usage.department_idx = finance_idx then
    if approved_services.contains service.name_idx then
      flags ||| INTERNAL_POLICY_COMPLIANT
    else
      flags &&& 251
  else
    flags ||| INTERNAL_POLICY_COMPLIANT

/-- Per-event body of `risk_assessment_system` (src/ecs.rs): accumulates
`factor_flags : u16` and `score : u8` from the compliance register and usage,
then clamps the score to 100.  Each `score += k` is a `u8` addition, hence the
explicit `% 256`. -/
def risk_assessment_system (service : AIService) (usage : Usage) (flags : Nat) :
    RiskAssessment :=
  let openai_idx : Nat := 0
  let factor_flags : Nat := 0
  let score : Nat := 0
  let (factor_flags, score) :=
    if flags &&& EU_ACT_COMPLIANT = 0 then
      (factor_flags ||| RISK_EU_ACT, (score + 40) % 256)
    else (factor_flags, score)
  let (factor_flags, score) :=
    if flags &&& GDPR_COMPLIANT = 0 then
      (factor_flags ||| RISK_GDPR, (score + 30) % 256)
    else (factor_flags, score)
  let (factor_flags, score) :=
    if flags &&& INTERNAL_POLICY_COMPLIANT = 0 then
      (factor_flags ||| RISK_INTERNAL, (score + 20) % 256)
    else (factor_flags, score)
  let (factor_flags, score) :=
    if usage.data_sensitivity > 80 then
      (factor_flags ||| RISK_SENSITIVE_DATA, (score + 10) % 256)
    else (factor_flags, score)
  let (factor_flags, score) :=
    if service.vendor_idx = openai_idx then
      (factor_flags ||| RISK_PUBLIC_MODEL, (score + 5) % 256)
    else (factor_flags, score)
  let score := min score 100
  { score := score, factor_flags := factor_flags }

/-- Compliance register after the three compliance stages have run in order on
an event, starting from the given register. -/
def complianceChain (service : AIService) (usage : Usage) (flags : Nat) : Nat :=
  internal_policy_system service usage
    (gdpr_system usage (eu_ai_act_system service usage flags))

/-- Initial all-compliant register the worker gives each spawned event
(src/ecs.rs, `worker_thread`). -/
def initFlags : Nat := EU_ACT_COMPLIANT ||| GDPR_COMPLIANT ||| INTERNAL_POLICY_COMPLIANT

/-- One fully processed entity as it sits in the world after the rule chain:
its raw components, the compliance register, and the optional risk component. -/
structure Entity where
  service : AIService
  usage : Usage
  status : ComplianceStatus
  risk : Option RiskAssessment

/-- Runs the four-stage rule chain of `worker_thread` (src/ecs.rs) on one raw
event: spawn with the all-compliant register, apply the three compliance
systems in order, then attach the risk assessment. -/
def processEvent (raw : AIService × Usage) : Entity :=
  let flags := complianceChain raw.1 raw.2 initFlags
  { service := raw.1, usage := raw.2, status := { flags := flags },
    risk := some (risk_assessment_system raw.1 raw.2 flags) }

/-- Enhanced metrics for reporting and visualization
(`ComplianceMetrics`, src/metrics.rs).  The `f64` fields are modelled in `ℚ`,
the `[usize; 5]` arrays as `Fin 5 → Nat`. -/
structure ComplianceMetrics where
  total_events : Nat
  eu_act_violations : Nat
  gdpr_violations : Nat
  internal_violations : Nat
  high_risk_count : Nat
  medium_risk_count : Nat
  low_risk_count : Nat
  service_counts : Fin 5 → Nat
  vendor_counts : Fin 5 → Nat
  department_counts : Fin 5 → Nat
  risk_factor_counts : Fin 5 → Nat
  avg_data_sensitivity : ℚ
  total_data_sensitivity : Nat
  data_sensitivity_samples : Nat
  processing_rate : ℚ
  historical_rates : List ℚ
  historical_violations : List (Nat × Nat × Nat)

/-- The all-zero metrics value (`ComplianceMetrics::default()`). -/
def defaultMetrics : ComplianceMetrics where
  total_events := 0
  eu_act_violations := 0
  gdpr_violations := 0
  internal_violations := 0
  high_risk_count := 0
  medium_risk_count := 0
  low_risk_count := 0
  service_counts := fun _ => 0
  vendor_counts := fun _ => 0
  department_counts := fun _ => 0
  risk_factor_counts := fun _ => 0
  avg_data_sensitivity := 0
  total_data_sensitivity := 0
  data_sensitivity_samples := 0
  processing_rate := 0
  historical_rates := []
  historical_violations := []

/-- Merge of another snapshot into this one (`ComplianceMetrics::merge`,
src/metrics.rs).  The `for i in 0..5` loops adding the distribution buckets
become pointwise sums on `Fin 5 → Nat`; `avg_data_sensitivity` is recomputed
only when the summed sample count is positive, exactly as in the source. -/
def ComplianceMetrics.merge (self other : ComplianceMetrics) : ComplianceMetrics :=
  let total_data_sensitivity := self.total_data_sensitivity + other.total_data_sensitivity
  let data_sensitivity_samples := self.data_sensitivity_samples + other.data_sensitivity_samples
  { self with
    total_events := self.total_events + other.total_events
    eu_act_violations := self.eu_act_violations + other.eu_act_violations
    gdpr_violations := self.gdpr_violations + other.gdpr_violations
    internal_violations := self.internal_violations + other.internal_violations
    high_risk_count := self.high_risk_count + other.high_risk_count
    medium_risk_count := self.medium_risk_count + other.medium_risk_count
    low_risk_count := self.low_risk_count + other.low_risk_count
    service_counts := fun i => self.service_counts i + other.service_counts i
    vendor_counts := fun i => self.vendor_counts i + other.vendor_counts i
    department_counts := fun i => self.department_counts i + other.department_counts i
    risk_factor_counts := fun i => self.risk_factor_counts i + other.risk_factor_counts i
    total_data_sensitivity := total_data_sensitivity
    data_sensitivity_samples := data_sensitivity_samples
    avg_data_sensitivity :=
      if data_sensitivity_samples > 0 then
        (total_data_sensitivity : ℚ) / (data_sensitivity_samples : ℚ)
      else self.avg_data_sensitivity }

/-- Historical-window update (`ComplianceMetrics::update_historical_data`,
src/metrics.rs): recompute the processing rate, push it and the current
violation triple onto the two historical series, and drop the oldest entry of
a series when its length exceeds 30 (`Vec::remove(0)` drops the front). -/
def ComplianceMetrics.update_historical_data (self : ComplianceMetrics)
    (processed_since_last : Nat) (elapsed : ℚ) : ComplianceMetrics :=
  let processing_rate : ℚ := (processed_since_last : ℚ) / elapsed
  let historical_rates := self.historical_rates ++ [processing_rate]
  let historical_rates :=
    if historical_rates.length > 30 then historical_rates.drop 1 else historical_rates
  let historical_violations := self.historical_violations ++
    [(self.eu_act_violations, self.gdpr_violations, self.internal_violations)]
  let historical_violations :=
    if historical_violations.length > 30 then historical_violations.drop 1
    else historical_violations
  { self with
    processing_rate := processing_rate
    historical_rates := historical_rates
    historical_violations := historical_violations }

/-- Compliance percentage (`ComplianceMetrics::compliance_percentage`,
src/metrics.rs): 100 when there are no events, otherwise
`100 * (1 - violations / (total * 3))`. -/
def ComplianceMetrics.compliance_percentage (self : ComplianceMetrics) : ℚ :=
  if self.total_events = 0 then 100
  else
    let violation_count :=
      self.eu_act_violations + self.gdpr_violations + self.internal_violations
    100 * (1 - (violation_count : ℚ) / ((self.total_events : ℚ) * 3))

/-- First group of statements in the `collect_metrics` loop body (src/ecs.rs):
the unconditional increments of the total, the three identifier buckets and
the sensitivity accumulators. -/
def scanBase (m : ComplianceMetrics) (ni vi di : Fin 5) (sensitivity : Nat) :
    ComplianceMetrics :=
  { m with
    total_events := m.total_events + 1
    service_counts := Function.update m.service_counts ni (m.service_counts ni + 1)
    vendor_counts := Function.update m.vendor_counts vi (m.vendor_counts vi + 1)
    department_counts := Function.update m.department_counts di (m.department_counts di + 1)
    total_data_sensitivity := m.total_data_sensitivity + sensitivity
    data_sensitivity_samples := m.data_sensitivity_samples + 1 }

/-- Second group of statements in the `collect_metrics` loop body
(src/ecs.rs): the three violation counters, each incremented when its
compliance bit is clear.  The three `if` statements touch disjoint fields, so
they are written as one record update. -/
def scanViolations (m : ComplianceMetrics) (flags : Nat) : ComplianceMetrics :=
  { m with
    eu_act_violations :=
      m.eu_act_violations + if flags &&& EU_ACT_COMPLIANT = 0 then 1 else 0
    gdpr_violations :=
      m.gdpr_violations + if flags &&& GDPR_COMPLIANT = 0 then 1 else 0
    internal_violations :=
      m.internal_violations + if flags &&& INTERNAL_POLICY_COMPLIANT = 0 then 1 else 0 }

/-- One conditional risk-factor bucket increment
(`if risk.factor_flags & RISK_X != 0 { metrics.risk_factor_counts[i] += 1; }`
in `collect_metrics`, src/ecs.rs). -/
def bumpFactor (m : ComplianceMetrics) (cond : Prop) [Decidable cond] (i : Fin 5) :
    ComplianceMetrics :=
  if cond then
    { m with risk_factor_counts :=
        Function.update m.risk_factor_counts i (m.risk_factor_counts i + 1) }
  else m

/-- The three-way risk-tier classification at the end of the
`if let Some(risk)` block of `collect_metrics` (src/ecs.rs): high for score
above 70, medium for score above 30, low otherwise. -/
def bumpTier (m : ComplianceMetrics) (score : Nat) : ComplianceMetrics :=
  if score > 70 then
    { m with high_risk_count := m.high_risk_count + 1 }
  else if score > 30 then
    { m with medium_risk_count := m.medium_risk_count + 1 }
  else
    { m with low_risk_count := m.low_risk_count + 1 }

/-- The `if let Some(risk)` block of the `collect_metrics` loop body
(src/ecs.rs): the five conditional risk-factor bucket increments followed by
the risk-tier classification on the score. -/
def scanRisk (m : ComplianceMetrics) : Option RiskAssessment → ComplianceMetrics
  | none => m
  | some risk =>
    bumpTier
      (bumpFactor
        (bumpFactor
          (bumpFactor
            (bumpFactor
              (bumpFactor m (risk.factor_flags &&& RISK_EU_ACT ≠ 0) 0)
              (risk.factor_flags &&& RISK_GDPR ≠ 0) 1)
            (risk.factor_flags &&& RISK_INTERNAL ≠ 0) 2)
          (risk.factor_flags &&& RISK_SENSITIVE_DATA ≠ 0) 3)
        (risk.factor_flags &&& RISK_PUBLIC_MODEL ≠ 0) 4)
      risk.score

/-- Scan of one entity by `collect_metrics` (src/ecs.rs): the three helper
functions above applied in the order of the source loop body.  Rust would
panic on an out-of-range bucket index, so the result is `none` in that case. -/
def collectEvent (m : ComplianceMetrics) (e : Entity) : Option ComplianceMetrics :=
  if hn : e.service.name_idx < 5 then
    if hv : e.service.vendor_idx < 5 then
      if hd : e.usage.department_idx < 5 then
        some (scanRisk
          (scanViolations
            (scanBase m ⟨e.service.name_idx, hn⟩ ⟨e.service.vendor_idx, hv⟩
              ⟨e.usage.department_idx, hd⟩ e.usage.data_sensitivity)
            e.status.flags)
          e.risk)
      else none
    else none
  else none

/-- Final statement of `collect_metrics` (src/ecs.rs): recompute the average
sensitivity when at least one sample was seen. -/
def fixAverage (m : ComplianceMetrics) : ComplianceMetrics :=
  if m.data_sensitivity_samples > 0 then
    { m with avg_data_sensitivity :=
        (m.total_data_sensitivity : ℚ) / (m.data_sensitivity_samples : ℚ) }
  else m

/-- Aggregation of compliance metrics over a world of entities
(`collect_metrics`, src/ecs.rs): fold the per-entity scan over the batch
starting from the default snapshot, then fix up the derived average. -/
def collect_metrics (world : List Entity) : Option ComplianceMetrics :=
  (world.foldlM collectEvent defaultMetrics).map fixAverage

/-- Well-formedness of one raw generated event: `generate_ai_events`
(src/ecs.rs) draws the three indices from `0..5` and the sensitivity from
`0..100`. -/
def wfRaw (raw : AIService × Usage) : Prop :=
  raw.1.name_idx < 5 ∧ raw.1.vendor_idx < 5 ∧
    raw.2.department_idx < 5 ∧ raw.2.data_sensitivity < 100

instance (raw : AIService × Usage) : Decidable (wfRaw raw) := by
  unfold wfRaw; infer_instance

/-- One worker cycle's snapshot (src/ecs.rs, `worker_thread`): spawn the raw
batch with all-compliant registers, run the four systems, collect.  The world
is cleared at the end of every cycle, so each collection sees exactly the
current batch. -/
def processBatch (raw : List (AIService × Usage)) : Option ComplianceMetrics :=
  collect_metrics (raw.map processEvent)

/-- Worker accumulator after `n` cycles (src/ecs.rs, `worker_thread`), where
`batches i` is the batch generated in cycle `i + 1`: each cycle merges the
collected batch snapshot into the accumulator, and every 10th cycle the
accumulator is sent and reset to the default.  `none` means a cycle panicked
(out-of-range index). -/
def workerAcc (batches : Nat → List (AIService × Usage)) : Nat → Option ComplianceMetrics
  | 0 => some defaultMetrics
  | n + 1 =>
    (workerAcc batches n).bind fun acc =>
      (processBatch (batches n)).map fun bm =>
        if (n + 1) % 10 = 0 then defaultMetrics else acc.merge bm

/-- Value sent on the metrics channel at cycle `n` when `n % 10 = 0` and
`n > 0`: the accumulator just after merging cycle `n`'s batch, immediately
before the reset (src/ecs.rs, `worker_thread`). -/
def workerSent (batches : Nat → List (AIService × Usage)) (n : Nat) :
    Option ComplianceMetrics :=
  (workerAcc batches (n - 1)).bind fun acc =>
    (processBatch (batches (n - 1))).map fun bm => acc.merge bm

/-- Events per worker thread (src/main.rs): `args.rate as usize / thread_count`,
integer division. -/
def events_per_thread (rate thread_count : Nat) : Nat := rate / thread_count

/-- Events per batch (src/main.rs): `events_per_thread / 100`, integer
division, with no lower bound applied. -/
def events_per_batch (rate thread_count : Nat) : Nat :=
  events_per_thread rate thread_count / 100

/-- Historical updates applied in sequence: each element is the
`(processed_since_last, elapsed)` argument pair of one
`update_historical_data` call (src/metrics.rs, driven by the aggregator loop
in src/main.rs). -/
def applyUpdates (m : ComplianceMetrics) (us : List (Nat × ℚ)) : ComplianceMetrics :=
  us.foldl (fun acc u => acc.update_historical_data u.1 u.2) m

/-- The sequence of rates appended by a sequence of historical updates. -/
def ratesOf (us : List (Nat × ℚ)) : List ℚ := us.map fun u => (u.1 : ℚ) / u.2

/-- Sum of the contributions the risk stage adds to the score, written from
the specification of the risk stage for comparison with
`risk_assessment_system`: 40 for a clear EU-Act bit, 30 for a clear GDPR bit,
20 for a clear Internal-Policy bit, 10 for sensitivity above 80, 5 for
vendor 0. -/
def riskScoreTotal (service : AIService) (usage : Usage) (flags : Nat) : Nat :=
  (if flags &&& EU_ACT_COMPLIANT = 0 then 40 else 0) +
  (if flags &&& GDPR_COMPLIANT = 0 then 30 else 0) +
  (if flags &&& INTERNAL_POLICY_COMPLIANT = 0 then 20 else 0) +
  (if usage.data_sensitivity > 80 then 10 else 0) +
  (if service.vendor_idx = 0 then 5 else 0)

/-- Union of exactly the factor bits whose conditions fire, written from the
specification of the risk stage for comparison with
`risk_assessment_system`. -/
def riskFactorFlags (service : AIService) (usage : Usage) (flags : Nat) : Nat :=
  (if flags &&& EU_ACT_COMPLIANT = 0 then RISK_EU_ACT else 0) |||
  (if flags &&& GDPR_COMPLIANT = 0 then RISK_GDPR else 0) |||
  (if flags &&& INTERNAL_POLICY_COMPLIANT = 0 then RISK_INTERNAL else 0) |||
  (if usage.data_sensitivity > 80 then RISK_SENSITIVE_DATA else 0) |||
  (if service.vendor_idx = 0 then RISK_PUBLIC_MODEL else 0)

/-- Entities as `collect_metrics` can rely on them after the full rule chain
ran: in-range bucket indices, a risk component present, and factor bits that
fired exactly for the cleared compliance bits. -/
def goodEntity (e : Entity) : Prop :=
  e.service.name_idx < 5 ∧ e.service.vendor_idx < 5 ∧ e.usage.department_idx < 5 ∧
    ∃ rk, e.risk = some rk ∧
      ((rk.factor_flags &&& RISK_EU_ACT ≠ 0) ↔ e.status.flags &&& EU_ACT_COMPLIANT = 0) ∧
      ((rk.factor_flags &&& RISK_GDPR ≠ 0) ↔ e.status.flags &&& GDPR_COMPLIANT = 0) ∧
      ((rk.factor_flags &&& RISK_INTERNAL ≠ 0) ↔
        e.status.flags &&& INTERNAL_POLICY_COMPLIANT = 0)

/-- Benign raw event used as a concrete input: service 0 of vendor 1, used by
department 0 at sensitivity 30; it violates no rule and fires no risk factor. -/
def benignRaw : AIService × Usage := (⟨0, 1⟩, ⟨0, 30⟩)

/-- Snapshot whose rate series already holds one entry, a concrete input for
the historical-window claim. -/
def preloadedMetrics : ComplianceMetrics :=
  { defaultMetrics with historical_rates := [(37 : ℚ)] }

/-- Snapshot whose historical series already hold 31 entries, a concrete
input for the historical-window claim. -/
def oversizedMetrics : ComplianceMetrics :=
  { defaultMetrics with
    historical_rates := List.replicate 31 (0 : ℚ)
    historical_violations := List.replicate 31 (0, 0, 0) }

/-- Snapshot with 10 events and 3 EU-Act violations, a concrete input for the
compliance-percentage claim. -/
def tenEventMetrics : ComplianceMetrics :=
  { defaultMetrics with total_events := 10, eu_act_violations := 3 }

/-- Tuple of the scalar counter fields of a snapshot: total, the three
violation counts, the three risk-tier counts, and the sensitivity sum and
sample count. -/
def scalarCounters (m : ComplianceMetrics) :
    Nat × Nat × Nat × Nat × Nat × Nat × Nat × Nat × Nat :=
  (m.total_events, m.eu_act_violations, m.gdpr_violations, m.internal_violations,
   m.high_risk_count, m.medium_risk_count, m.low_risk_count,
   m.total_data_sensitivity, m.data_sensitivity_samples)

/-! Helper lemmas. -/

lemma mem_approved_iff (n : Nat) : n ∈ approved_services ↔ (n = 1 ∨ n = 3) := by
  simp [approved_services]

lemma complianceChain_eq (s : AIService) (u : Usage) :
    complianceChain s u initFlags =
      (if s.vendor_idx = 0 ∧ u.data_sensitivity > 70 then 0 else 1) +
      (if u.data_sensitivity < 50 then 2 else 0) +
      (if u.department_idx ≠ 2 ∨ s.name_idx = 1 ∨ s.name_idx = 3 then 4 else 0) := by
  unfold complianceChain internal_policy_system gdpr_system eu_ai_act_system initFlags
  unfold EU_ACT_COMPLIANT GDPR_COMPLIANT INTERNAL_POLICY_COMPLIANT
  by_cases h1 : s.vendor_idx = 0 ∧ u.data_sensitivity > 70 <;>
  by_cases h2 : u.data_sensitivity < 50 <;>
  by_cases h3 : u.department_idx = 2 <;>
  by_cases h4 : s.name_idx = 1 ∨ s.name_idx = 3 <;>
    simp [h1, h2, h3, h4, mem_approved_iff] <;> decide

lemma risk_assessment_eq (s : AIService) (u : Usage) (flags : Nat) :
    risk_assessment_system s u flags =
      { score := min (riskScoreTotal s u flags) 100,
        factor_flags := riskFactorFlags s u flags } := by
  unfold risk_assessment_system riskScoreTotal riskFactorFlags
  by_cases h1 : flags &&& EU_ACT_COMPLIANT = 0 <;>
  by_cases h2 : flags &&& GDPR_COMPLIANT = 0 <;>
  by_cases h3 : flags &&& INTERNAL_POLICY_COMPLIANT = 0 <;>
  by_cases h4 : u.data_sensitivity > 80 <;>
  by_cases h5 : s.vendor_idx = 0 <;>
    simp [h1, h2, h3, h4, h5]

lemma riskFactorFlags_bit0 (s : AIService) (u : Usage) (flags : Nat) :
    (riskFactorFlags s u flags &&& RISK_EU_ACT ≠ 0) ↔ flags &&& EU_ACT_COMPLIANT = 0 := by
  unfold riskFactorFlags
  by_cases h1 : flags &&& EU_ACT_COMPLIANT = 0 <;>
  by_cases h2 : flags &&& GDPR_COMPLIANT = 0 <;>
  by_cases h3 : flags &&& INTERNAL_POLICY_COMPLIANT = 0 <;>
  by_cases h4 : u.data_sensitivity > 80 <;>
  by_cases h5 : s.vendor_idx = 0 <;>
    simp [h1, h2, h3, h4, h5] <;> decide

lemma riskFactorFlags_bit1 (s : AIService) (u : Usage) (flags : Nat) :
    (riskFactorFlags s u flags &&& RISK_GDPR ≠ 0) ↔ flags &&& GDPR_COMPLIANT = 0 := by
  unfold riskFactorFlags
  by_cases h1 : flags &&& EU_ACT_COMPLIANT = 0 <;>
  by_cases h2 : flags &&& GDPR_COMPLIANT = 0 <;>
  by_cases h3 : flags &&& INTERNAL_POLICY_COMPLIANT = 0 <;>
  by_cases h4 : u.data_sensitivity > 80 <;>
  by_cases h5 : s.vendor_idx = 0 <;>
    simp [h1, h2, h3, h4, h5] <;> decide

lemma riskFactorFlags_bit2 (s : AIService) (u : Usage) (flags : Nat) :
    (riskFactorFlags s u flags &&& RISK_INTERNAL ≠ 0) ↔
      flags &&& INTERNAL_POLICY_COMPLIANT = 0 := by
  unfold riskFactorFlags
  by_cases h1 : flags &&& EU_ACT_COMPLIANT = 0 <;>
  by_cases h2 : flags &&& GDPR_COMPLIANT = 0 <;>
  by_cases h3 : flags &&& INTERNAL_POLICY_COMPLIANT = 0 <;>
  by_cases h4 : u.data_sensitivity > 80 <;>
  by_cases h5 : s.vendor_idx = 0 <;>
    simp [h1, h2, h3, h4, h5] <;> decide

lemma processEvent_good (raw : AIService × Usage) (h : wfRaw raw) :
    goodEntity (processEvent raw) := by
  obtain ⟨hn, hv, hd, _⟩ := h
  refine ⟨hn, hv, hd, risk_assessment_system raw.1 raw.2 (complianceChain raw.1 raw.2 initFlags),
    rfl, ?_, ?_, ?_⟩ <;>
    simp only [processEvent, risk_assessment_eq]
  · exact riskFactorFlags_bit0 raw.1 raw.2 _
  · exact riskFactorFlags_bit1 raw.1 raw.2 _
  · exact riskFactorFlags_bit2 raw.1 raw.2 _

section Projections

variable (m : ComplianceMetrics) (ni vi di : Fin 5) (sens flags : Nat)
variable (c : Prop) [Decidable c] (i j : Fin 5) (score : Nat) (rk : RiskAssessment)

lemma scanBase_total : (scanBase m ni vi di sens).total_events = m.total_events + 1 := rfl

lemma scanBase_eu : (scanBase m ni vi di sens).eu_act_violations = m.eu_act_violations := rfl

lemma scanBase_gdpr : (scanBase m ni vi di sens).gdpr_violations = m.gdpr_violations := rfl

lemma scanBase_internal :
    (scanBase m ni vi di sens).internal_violations = m.internal_violations := rfl

lemma scanBase_tiers :
    (scanBase m ni vi di sens).high_risk_count = m.high_risk_count ∧
    (scanBase m ni vi di sens).medium_risk_count = m.medium_risk_count ∧
    (scanBase m ni vi di sens).low_risk_count = m.low_risk_count := ⟨rfl, rfl, rfl⟩

lemma scanBase_rf : (scanBase m ni vi di sens).risk_factor_counts = m.risk_factor_counts := rfl

lemma scanBase_service :
    (scanBase m ni vi di sens).service_counts =
      Function.update m.service_counts ni (m.service_counts ni + 1) := rfl

lemma scanBase_vendor :
    (scanBase m ni vi di sens).vendor_counts =
      Function.update m.vendor_counts vi (m.vendor_counts vi + 1) := rfl

lemma scanBase_department :
    (scanBase m ni vi di sens).department_counts =
      Function.update m.department_counts di (m.department_counts di + 1) := rfl

lemma scanViolations_eu :
    (scanViolations m flags).eu_act_violations =
      m.eu_act_violations + if flags &&& EU_ACT_COMPLIANT = 0 then 1 else 0 := rfl

lemma scanViolations_gdpr :
    (scanViolations m flags).gdpr_violations =
      m.gdpr_violations + if flags &&& GDPR_COMPLIANT = 0 then 1 else 0 := rfl

lemma scanViolations_internal :
    (scanViolations m flags).internal_violations =
      m.internal_violations + if flags &&& INTERNAL_POLICY_COMPLIANT = 0 then 1 else 0 := rfl

lemma scanViolations_total : (scanViolations m flags).total_events = m.total_events := rfl

lemma scanViolations_tiers :
    (scanViolations m flags).high_risk_count = m.high_risk_count ∧
    (scanViolations m flags).medium_risk_count = m.medium_risk_count ∧
    (scanViolations m flags).low_risk_count = m.low_risk_count := ⟨rfl, rfl, rfl⟩

lemma scanViolations_rf :
    (scanViolations m flags).risk_factor_counts = m.risk_factor_counts := rfl

lemma scanViolations_service : (scanViolations m flags).service_counts = m.service_counts := rfl

lemma scanViolations_vendor : (scanViolations m flags).vendor_counts = m.vendor_counts := rfl

lemma scanViolations_department :
    (scanViolations m flags).department_counts = m.department_counts := rfl

lemma bumpFactor_rf :
    (bumpFactor m c i).risk_factor_counts j =
      m.risk_factor_counts j + if c ∧ j = i then 1 else 0 := by
  unfold bumpFactor
  by_cases hc : c <;> by_cases hj : j = i <;>
    simp [hc, hj, Function.update_apply]

lemma bumpFactor_total : (bumpFactor m c i).total_events = m.total_events := by
  unfold bumpFactor; split <;> rfl

lemma bumpFactor_eu : (bumpFactor m c i).eu_act_violations = m.eu_act_violations := by
  unfold bumpFactor; split <;> rfl

lemma bumpFactor_gdpr : (bumpFactor m c i).gdpr_violations = m.gdpr_violations := by
  unfold bumpFactor; split <;> rfl

lemma bumpFactor_internal : (bumpFactor m c i).internal_violations = m.internal_violations := by
  unfold bumpFactor; split <;> rfl

lemma bumpFactor_tiers :
    (bumpFactor m c i).high_risk_count = m.high_risk_count ∧
    (bumpFactor m c i).medium_risk_count = m.medium_risk_count ∧
    (bumpFactor m c i).low_risk_count = m.low_risk_count := by
  unfold bumpFactor; split <;> exact ⟨rfl, rfl, rfl⟩

lemma bumpFactor_service : (bumpFactor m c i).service_counts = m.service_counts := by
  unfold bumpFactor; split <;> rfl

lemma bumpFactor_vendor : (bumpFactor m c i).vendor_counts = m.vendor_counts := by
  unfold bumpFactor; split <;> rfl

lemma bumpFactor_department : (bumpFactor m c i).department_counts = m.department_counts := by
  unfold bumpFactor; split <;> rfl

lemma bumpTier_total : (bumpTier m score).total_events = m.total_events := by
  unfold bumpTier; split_ifs <;> rfl

lemma bumpTier_eu : (bumpTier m score).eu_act_violations = m.eu_act_violations := by
  unfold bumpTier; split_ifs <;> rfl

lemma bumpTier_gdpr : (bumpTier m score).gdpr_violations = m.gdpr_violations := by
  unfold bumpTier; split_ifs <;> rfl

lemma bumpTier_internal : (bumpTier m score).internal_violations = m.internal_violations := by
  unfold bumpTier; split_ifs <;> rfl

lemma bumpTier_rf : (bumpTier m score).risk_factor_counts = m.risk_factor_counts := by
  unfold bumpTier; split_ifs <;> rfl

lemma bumpTier_service : (bumpTier m score).service_counts = m.service_counts := by
  unfold bumpTier; split_ifs <;> rfl

lemma bumpTier_vendor : (bumpTier m score).vendor_counts = m.vendor_counts := by
  unfold bumpTier; split_ifs <;> rfl

lemma bumpTier_department : (bumpTier m score).department_counts = m.department_counts := by
  unfold bumpTier; split_ifs <;> rfl

lemma bumpTier_sum :
    (bumpTier m score).high_risk_count + (bumpTier m score).medium_risk_count +
        (bumpTier m score).low_risk_count =
      m.high_risk_count + m.medium_risk_count + m.low_risk_count + 1 := by
  unfold bumpTier; split_ifs <;> simp <;> omega

lemma scanRisk_some :
    scanRisk m (some rk) =
      bumpTier
        (bumpFactor
          (bumpFactor
            (bumpFactor
              (bumpFactor
                (bumpFactor m (rk.factor_flags &&& RISK_EU_ACT ≠ 0) 0)
                (rk.factor_flags &&& RISK_GDPR ≠ 0) 1)
              (rk.factor_flags &&& RISK_INTERNAL ≠ 0) 2)
            (rk.factor_flags &&& RISK_SENSITIVE_DATA ≠ 0) 3)
          (rk.factor_flags &&& RISK_PUBLIC_MODEL ≠ 0) 4)
        rk.score := rfl

lemma scanRisk_total : (scanRisk m (some rk)).total_events = m.total_events := by
  rw [scanRisk_some, bumpTier_total]
  simp [bumpFactor_total]

lemma scanRisk_eu : (scanRisk m (some rk)).eu_act_violations = m.eu_act_violations := by
  rw [scanRisk_some, bumpTier_eu]
  simp [bumpFactor_eu]

lemma scanRisk_gdpr : (scanRisk m (some rk)).gdpr_violations = m.gdpr_violations := by
  rw [scanRisk_some, bumpTier_gdpr]
  simp [bumpFactor_gdpr]

lemma scanRisk_internal :
    (scanRisk m (some rk)).internal_violations = m.internal_violations := by
  rw [scanRisk_some, bumpTier_internal]
  simp [bumpFactor_internal]

lemma scanRisk_service : (scanRisk m (some rk)).service_counts = m.service_counts := by
  rw [scanRisk_some, bumpTier_service]
  simp [bumpFactor_service]

lemma scanRisk_vendor : (scanRisk m (some rk)).vendor_counts = m.vendor_counts := by
  rw [scanRisk_some, bumpTier_vendor]
  simp [bumpFactor_vendor]

lemma scanRisk_department :
    (scanRisk m (some rk)).department_counts = m.department_counts := by
  rw [scanRisk_some, bumpTier_department]
  simp [bumpFactor_department]

lemma scanRisk_rf0 :
    (scanRisk m (some rk)).risk_factor_counts 0 =
      m.risk_factor_counts 0 + if rk.factor_flags &&& RISK_EU_ACT ≠ 0 then 1 else 0 := by
  rw [scanRisk_some, bumpTier_rf]
  simp +decide [bumpFactor_rf]

lemma scanRisk_rf1 :
    (scanRisk m (some rk)).risk_factor_counts 1 =
      m.risk_factor_counts 1 + if rk.factor_flags &&& RISK_GDPR ≠ 0 then 1 else 0 := by
  rw [scanRisk_some, bumpTier_rf]
  simp +decide [bumpFactor_rf]

lemma scanRisk_rf2 :
    (scanRisk m (some rk)).risk_factor_counts 2 =
      m.risk_factor_counts 2 + if rk.factor_flags &&& RISK_INTERNAL ≠ 0 then 1 else 0 := by
  rw [scanRisk_some, bumpTier_rf]
  simp +decide [bumpFactor_rf]

lemma scanRisk_tier_sum :
    (scanRisk m (some rk)).high_risk_count + (scanRisk m (some rk)).medium_risk_count +
        (scanRisk m (some rk)).low_risk_count =
      m.high_risk_count + m.medium_risk_count + m.low_risk_count + 1 := by
  rw [scanRisk_some, bumpTier_sum]
  simp [bumpFactor_tiers, (bumpFactor_tiers _ _ _).1]

lemma fixAverage_counters :
    (fixAverage m).total_events = m.total_events ∧
    (fixAverage m).eu_act_violations = m.eu_act_violations ∧
    (fixAverage m).gdpr_violations = m.gdpr_violations ∧
    (fixAverage m).internal_violations = m.internal_violations ∧
    (fixAverage m).high_risk_count = m.high_risk_count ∧
    (fixAverage m).medium_risk_count = m.medium_risk_count ∧
    (fixAverage m).low_risk_count = m.low_risk_count ∧
    (fixAverage m).risk_factor_counts = m.risk_factor_counts ∧
    (fixAverage m).service_counts = m.service_counts ∧
    (fixAverage m).vendor_counts = m.vendor_counts ∧
    (fixAverage m).department_counts = m.department_counts := by
  unfold fixAverage; split <;> exact ⟨rfl, rfl, rfl, rfl, rfl, rfl, rfl, rfl, rfl, rfl, rfl⟩

end Projections

lemma sum_update_add_one (f : Fin 5 → Nat) (i : Fin 5) :
    (∑ j, Function.update f i (f i + 1) j) = (∑ j, f j) + 1 := by
  rw [Finset.sum_update_of_mem (Finset.mem_univ i)]
  rw [Finset.sum_eq_sum_diff_singleton_add (Finset.mem_univ i) f]
  omega

lemma collectEvent_step (m : ComplianceMetrics) (e : Entity) (he : goodEntity e) :
    ∃ m2, collectEvent m e = some m2 ∧
      m2.total_events = m.total_events + 1 ∧
      m2.high_risk_count + m2.medium_risk_count + m2.low_risk_count =
        m.high_risk_count + m.medium_risk_count + m.low_risk_count + 1 ∧
      m2.eu_act_violations + m.risk_factor_counts 0 =
        m.eu_act_violations + m2.risk_factor_counts 0 ∧
      m2.gdpr_violations + m.risk_factor_counts 1 =
        m.gdpr_violations + m2.risk_factor_counts 1 ∧
      m2.internal_violations + m.risk_factor_counts 2 =
        m.internal_violations + m2.risk_factor_counts 2 ∧
      (∑ i, m2.service_counts i) = (∑ i, m.service_counts i) + 1 ∧
      (∑ i, m2.vendor_counts i) = (∑ i, m.vendor_counts i) + 1 ∧
      (∑ i, m2.department_counts i) = (∑ i, m.department_counts i) + 1 := by
  obtain ⟨hn, hv, hd, rk, hrk, hc0, hc1, hc2⟩ := he
  refine ⟨_, by unfold collectEvent; rw [dif_pos hn, dif_pos hv, dif_pos hd],
    ?_, ?_, ?_, ?_, ?_, ?_, ?_, ?_⟩
  · rw [hrk, scanRisk_total, scanViolations_total, scanBase_total]
  · rw [hrk, scanRisk_tier_sum]
    rw [(scanViolations_tiers _ _).1, (scanViolations_tiers _ _).2.1,
      (scanViolations_tiers _ _).2.2, (scanBase_tiers _ _ _ _ _).1,
      (scanBase_tiers _ _ _ _ _).2.1, (scanBase_tiers _ _ _ _ _).2.2]
  · rw [hrk, scanRisk_eu, scanRisk_rf0, scanViolations_eu, scanViolations_rf,
      scanBase_eu, scanBase_rf]
    by_cases hb : e.status.flags &&& EU_ACT_COMPLIANT = 0
    · simp [hb, hc0.mpr hb]
      omega
    · have hb2 := mt hc0.mp hb
      simp [hb, hb2]
  · rw [hrk, scanRisk_gdpr, scanRisk_rf1, scanViolations_gdpr, scanViolations_rf,
      scanBase_gdpr, scanBase_rf]
    by_cases hb : e.status.flags &&& GDPR_COMPLIANT = 0
    · simp [hb, hc1.mpr hb]
      omega
    · have hb2 := mt hc1.mp hb
      simp [hb, hb2]
  · rw [hrk, scanRisk_internal, scanRisk_rf2, scanViolations_internal, scanViolations_rf,
      scanBase_internal, scanBase_rf]
    by_cases hb : e.status.flags &&& INTERNAL_POLICY_COMPLIANT = 0
    · simp [hb, hc2.mpr hb]
      omega
    · have hb2 := mt hc2.mp hb
      simp [hb, hb2]
  · rw [hrk, scanRisk_service, scanViolations_service, scanBase_service, sum_update_add_one]
  · rw [hrk, scanRisk_vendor, scanViolations_vendor, scanBase_vendor, sum_update_add_one]
  · rw [hrk, scanRisk_department, scanViolations_department, scanBase_department,
      sum_update_add_one]

lemma foldlM_collect_props (world : List Entity) :
    ∀ m0 : ComplianceMetrics, (∀ e ∈ world, goodEntity e) →
      ∃ m, world.foldlM collectEvent m0 = some m ∧
        m.total_events = m0.total_events + world.length ∧
        m.high_risk_count + m.medium_risk_count + m.low_risk_count =
          m0.high_risk_count + m0.medium_risk_count + m0.low_risk_count + world.length ∧
        m.eu_act_violations + m0.risk_factor_counts 0 =
          m0.eu_act_violations + m.risk_factor_counts 0 ∧
        m.gdpr_violations + m0.risk_factor_counts 1 =
          m0.gdpr_violations + m.risk_factor_counts 1 ∧
        m.internal_violations + m0.risk_factor_counts 2 =
          m0.internal_violations + m.risk_factor_counts 2 ∧
        (∑ i, m.service_counts i) = (∑ i, m0.service_counts i) + world.length ∧
        (∑ i, m.vendor_counts i) = (∑ i, m0.vendor_counts i) + world.length ∧
        (∑ i, m.department_counts i) = (∑ i, m0.department_counts i) + world.length := by
  induction world with
  | nil =>
    intro m0 _
    exact ⟨m0, rfl, by simp, by simp, rfl, rfl, rfl, by simp, by simp, by simp⟩
  | cons e es ih =>
    intro m0 h
    obtain ⟨m1, he1, p1, p2, p3, p4, p5, p6, p7, p8⟩ :=
      collectEvent_step m0 e (h e (List.mem_cons_self e es))
    obtain ⟨m, hm, q1, q2, q3, q4, q5, q6, q7, q8⟩ :=
      ih m1 fun e2 he2 => h e2 (List.mem_cons_of_mem e he2)
    have hfold : (e :: es).foldlM collectEvent m0 = some m := by
      simp [List.foldlM_cons, he1, hm]
    refine ⟨m, hfold, ?_, ?_, ?_, ?_, ?_, ?_, ?_, ?_⟩ <;>
      (try simp only [List.length_cons]) <;> omega

lemma collect_metrics_props (world : List Entity) (h : ∀ e ∈ world, goodEntity e) :
    ∃ m, collect_metrics world = some m ∧
      m.total_events = world.length ∧
      m.high_risk_count + m.medium_risk_count + m.low_risk_count = m.total_events ∧
      m.eu_act_violations = m.risk_factor_counts 0 ∧
      m.gdpr_violations = m.risk_factor_counts 1 ∧
      m.internal_violations = m.risk_factor_counts 2 ∧
      (∑ i, m.service_counts i) = world.length ∧
      (∑ i, m.vendor_counts i) = world.length ∧
      (∑ i, m.department_counts i) = world.length := by
  obtain ⟨m, hm, p1, p2, p3, p4, p5, p6, p7, p8⟩ :=
    foldlM_collect_props world defaultMetrics h
  simp only [defaultMetrics] at p1 p2 p3 p4 p5 p6 p7 p8
  obtain ⟨f1, f2, f3, f4, f5, f6, f7, f8, f9, f10, f11⟩ := fixAverage_counters m
  refine ⟨fixAverage m, by simp [collect_metrics, hm], ?_, ?_, ?_, ?_, ?_, ?_, ?_, ?_⟩ <;>
    simp only [f1, f2, f3, f4, f5, f6, f7, f8, f9, f10, f11] <;>
    simp_all

lemma processBatch_props (raw : List (AIService × Usage)) (hw : ∀ r ∈ raw, wfRaw r) :
    ∃ m, processBatch raw = some m ∧
      m.total_events = raw.length ∧
      m.high_risk_count + m.medium_risk_count + m.low_risk_count = m.total_events ∧
      m.eu_act_violations = m.risk_factor_counts 0 ∧
      m.gdpr_violations = m.risk_factor_counts 1 ∧
      m.internal_violations = m.risk_factor_counts 2 ∧
      (∑ i, m.service_counts i) = raw.length ∧
      (∑ i, m.vendor_counts i) = raw.length ∧
      (∑ i, m.department_counts i) = raw.length := by
  have hg : ∀ e ∈ raw.map processEvent, goodEntity e := by
    intro e he
    obtain ⟨r, hr, rfl⟩ := List.mem_map.mp he
    exact processEvent_good r (hw r hr)
  obtain ⟨m, hm, props⟩ := collect_metrics_props (raw.map processEvent) hg
  rw [List.length_map] at props
  exact ⟨m, hm, props⟩

lemma merge_total (a b : ComplianceMetrics) :
    (a.merge b).total_events = a.total_events + b.total_events := rfl

lemma workerAcc_total (batches : Nat → List (AIService × Usage)) (epb : Nat)
    (hlen : ∀ i, (batches i).length = epb)
    (hwf : ∀ i, ∀ r ∈ batches i, wfRaw r) :
    ∀ n, ∃ acc, workerAcc batches n = some acc ∧ acc.total_events = (n % 10) * epb := by
  intro n
  induction n with
  | zero => exact ⟨defaultMetrics, rfl, by simp [defaultMetrics]⟩
  | succ k ih =>
    obtain ⟨acc, hacc, htot⟩ := ih
    obtain ⟨bm, hbm, hbt, _⟩ := processBatch_props (batches k) (hwf k)
    rw [hlen k] at hbt
    by_cases hk : (k + 1) % 10 = 0
    · refine ⟨defaultMetrics, ?_, by simp [hk, defaultMetrics]⟩
      simp [workerAcc, hacc, hbm, hk]
    · refine ⟨acc.merge bm, ?_, ?_⟩
      · simp [workerAcc, hacc, hbm, hk]
      · have hmod : (k + 1) % 10 = k % 10 + 1 := by omega
        rw [merge_total, htot, hbt, hmod, Nat.succ_mul]

lemma workerSent_total (batches : Nat → List (AIService × Usage)) (epb : Nat)
    (hlen : ∀ i, (batches i).length = epb)
    (hwf : ∀ i, ∀ r ∈ batches i, wfRaw r)
    (n : Nat) (hpos : 0 < n) (hn : n % 10 = 0) :
    ∃ m, workerSent batches n = some m ∧ m.total_events = 10 * epb ∧
      workerAcc batches n = some defaultMetrics := by
  obtain ⟨k, rfl⟩ : ∃ k, n = k + 1 := ⟨n - 1, by omega⟩
  obtain ⟨acc, hacc, htot⟩ := workerAcc_total batches epb hlen hwf k
  obtain ⟨bm, hbm, hbt, _⟩ := processBatch_props (batches k) (hwf k)
  rw [hlen k] at hbt
  have hk9 : k % 10 = 9 := by omega
  refine ⟨acc.merge bm, ?_, ?_, ?_⟩
  · simp [workerSent, hacc, hbm]
  · rw [merge_total, htot, hbt, hk9]
    omega
  · simp [workerAcc, hacc, hbm, hn]

lemma drop_one_append {α : Type} (l t : List α) (n : Nat) (h : l ≠ []) :
    ((l.drop 1) ++ t).drop n = (l ++ t).drop (n + 1) := by
  cases l with
  | nil => exact absurd rfl h
  | cons a l2 => simp

lemma update_hist_rates (m : ComplianceMetrics) (p : Nat) (e : ℚ) :
    (m.update_historical_data p e).historical_rates =
      if (m.historical_rates ++ [(p : ℚ) / e]).length > 30 then
        (m.historical_rates ++ [(p : ℚ) / e]).drop 1
      else m.historical_rates ++ [(p : ℚ) / e] := rfl

lemma update_hist_viols (m : ComplianceMetrics) (p : Nat) (e : ℚ) :
    (m.update_historical_data p e).historical_violations =
      if (m.historical_violations ++
            [(m.eu_act_violations, m.gdpr_violations, m.internal_violations)]).length > 30 then
        (m.historical_violations ++
          [(m.eu_act_violations, m.gdpr_violations, m.internal_violations)]).drop 1
      else m.historical_violations ++
        [(m.eu_act_violations, m.gdpr_violations, m.internal_violations)] := rfl

lemma update_keeps_viol_counters (m : ComplianceMetrics) (p : Nat) (e : ℚ) :
    (m.update_historical_data p e).eu_act_violations = m.eu_act_violations ∧
    (m.update_historical_data p e).gdpr_violations = m.gdpr_violations ∧
    (m.update_historical_data p e).internal_violations = m.internal_violations :=
  ⟨rfl, rfl, rfl⟩

lemma applyUpdates_rates :
    ∀ (us : List (Nat × ℚ)) (m : ComplianceMetrics), m.historical_rates.length ≤ 30 →
      (applyUpdates m us).historical_rates =
        (m.historical_rates ++ ratesOf us).drop
          (m.historical_rates.length + us.length - 30) := by
  intro us
  induction us with
  | nil =>
    intro m h
    have h0 : m.historical_rates.length - 30 = 0 := by omega
    simp [applyUpdates, ratesOf, h0]
  | cons u us ih =>
    intro m h
    have happ : applyUpdates m (u :: us) =
        applyUpdates (m.update_historical_data u.1 u.2) us := rfl
    rw [happ]
    by_cases h30 : m.historical_rates.length = 30
    · have hif : (m.update_historical_data u.1 u.2).historical_rates =
          (m.historical_rates ++ [(u.1 : ℚ) / u.2]).drop 1 := by
        rw [update_hist_rates, if_pos (by simp [h30])]
      have hlen3 : ((m.historical_rates ++ [(u.1 : ℚ) / u.2]).drop 1).length = 30 := by
        simp [h30]
      have hlen2 : (m.update_historical_data u.1 u.2).historical_rates.length ≤ 30 := by
        rw [hif, hlen3]
      rw [ih _ hlen2, hif, hlen3]
      have hne : m.historical_rates ++ [(u.1 : ℚ) / u.2] ≠ [] := by simp
      rw [drop_one_append _ _ _ hne]
      have harith : 30 + us.length - 30 + 1 =
          m.historical_rates.length + (u :: us).length - 30 := by
        simp only [List.length_cons, h30]
        omega
      rw [harith]
      simp [ratesOf]
    · have hif : (m.update_historical_data u.1 u.2).historical_rates =
          m.historical_rates ++ [(u.1 : ℚ) / u.2] := by
        rw [update_hist_rates, if_neg (by simp; omega)]
      have hlen2 : (m.update_historical_data u.1 u.2).historical_rates.length ≤ 30 := by
        rw [hif]
        simp
        omega
      rw [ih _ hlen2, hif]
      have harith : (m.historical_rates ++ [(u.1 : ℚ) / u.2]).length + us.length - 30 =
          m.historical_rates.length + (u :: us).length - 30 := by
        simp
        omega
      rw [harith]
      simp [ratesOf]

lemma applyUpdates_viols :
    ∀ (us : List (Nat × ℚ)) (m : ComplianceMetrics), m.historical_violations.length ≤ 30 →
      (applyUpdates m us).historical_violations =
        (m.historical_violations ++ List.replicate us.length
            (m.eu_act_violations, m.gdpr_violations, m.internal_violations)).drop
          (m.historical_violations.length + us.length - 30) := by
  intro us
  induction us with
  | nil =>
    intro m h
    have h0 : m.historical_violations.length - 30 = 0 := by omega
    simp [applyUpdates, h0]
  | cons u us ih =>
    intro m h
    have happ : applyUpdates m (u :: us) =
        applyUpdates (m.update_historical_data u.1 u.2) us := rfl
    rw [happ]
    have hkeep := update_keeps_viol_counters m u.1 u.2
    by_cases h30 : m.historical_violations.length = 30
    · have hif : (m.update_historical_data u.1 u.2).historical_violations =
          (m.historical_violations ++
            [(m.eu_act_violations, m.gdpr_violations, m.internal_violations)]).drop 1 := by
        rw [update_hist_viols, if_pos (by simp [h30])]
      have hlen3 : ((m.historical_violations ++
          [(m.eu_act_violations, m.gdpr_violations, m.internal_violations)]).drop 1).length
            = 30 := by
        simp [h30]
      have hlen2 :
          (m.update_historical_data u.1 u.2).historical_violations.length ≤ 30 := by
        rw [hif, hlen3]
      rw [ih _ hlen2, hif, hlen3, hkeep.1, hkeep.2.1, hkeep.2.2]
      have hne : m.historical_violations ++
          [(m.eu_act_violations, m.gdpr_violations, m.internal_violations)] ≠ [] := by simp
      rw [drop_one_append _ _ _ hne]
      have harith : 30 + us.length - 30 + 1 =
          m.historical_violations.length + (u :: us).length - 30 := by
        simp only [List.length_cons, h30]
        omega
      rw [harith]
      simp [List.replicate_succ]
    · have hif : (m.update_historical_data u.1 u.2).historical_violations =
          m.historical_violations ++
            [(m.eu_act_violations, m.gdpr_violations, m.internal_violations)] := by
        rw [update_hist_viols, if_neg (by simp; omega)]
      have hlen2 :
          (m.update_historical_data u.1 u.2).historical_violations.length ≤ 30 := by
        rw [hif]
        simp
        omega
      rw [ih _ hlen2, hif, hkeep.1, hkeep.2.1, hkeep.2.2]
      have harith : (m.historical_violations ++
            [(m.eu_act_violations, m.gdpr_violations, m.internal_violations)]).length +
            us.length - 30 =
          m.historical_violations.length + (u :: us).length - 30 := by
        simp
        omega
      rw [harith]
      simp [List.replicate_succ]

/-! Claim theorems. -/

/-- Claim C1: after the three compliance stages have run in order on an event
(from the all-compliant initial register), the register is exactly: EU-Act bit
clear iff vendor 0 and sensitivity above 70, otherwise set; GDPR bit set iff
sensitivity below 50; Internal-Policy bit set iff department is not 2 or the
service name is 1 or 3. -/
theorem compliance_register_after_chain (s : AIService) (u : Usage) :
    ((complianceChain s u initFlags).testBit 0 = false ↔
      (s.vendor_idx = 0 ∧ u.data_sensitivity > 70)) ∧
    ((complianceChain s u initFlags).testBit 1 = true ↔ u.data_sensitivity < 50) ∧
    ((complianceChain s u initFlags).testBit 2 = true ↔
      (u.department_idx ≠ 2 ∨ s.name_idx = 1 ∨ s.name_idx = 3)) ∧
    complianceChain s u initFlags =
      (if s.vendor_idx = 0 ∧ u.data_sensitivity > 70 then 0 else EU_ACT_COMPLIANT) +
      (if u.data_sensitivity < 50 then GDPR_COMPLIANT else 0) +
      (if u.department_idx ≠ 2 ∨ s.name_idx = 1 ∨ s.name_idx = 3 then
        INTERNAL_POLICY_COMPLIANT else 0) := by
  refine ⟨?_, ?_, ?_, ?_⟩ <;> rw [complianceChain_eq] <;>
    split_ifs <;> simp_all +decide

/-- Claim C2: the risk stage computes score `min 100` of the sum of the
contributions 40/30/20/10/5 and sets exactly the corresponding factor bits;
in particular for vendor 0, sensitivity 85 and a department other than 2, on
the chain-produced register, the score is 85 with factor bits
EU-Act, GDPR, sensitive-data and public-model. -/
theorem risk_stage_score_and_factors :
    (∀ (s : AIService) (u : Usage) (flags : Nat),
      risk_assessment_system s u flags =
        { score := min (riskScoreTotal s u flags) 100,
          factor_flags := riskFactorFlags s u flags }) ∧
    (∀ (s : AIService) (u : Usage),
      s.vendor_idx = 0 → u.data_sensitivity = 85 → u.department_idx ≠ 2 →
      risk_assessment_system s u (complianceChain s u initFlags) =
        { score := 85,
          factor_flags :=
            RISK_EU_ACT ||| RISK_GDPR ||| RISK_SENSITIVE_DATA ||| RISK_PUBLIC_MODEL }) := by
  constructor
  · exact risk_assessment_eq
  · intro s u hv hs hd
    have hc : complianceChain s u initFlags = 4 := by
      rw [complianceChain_eq]
      simp [hv, hs, hd]
    rw [hc, risk_assessment_eq]
    simp [riskScoreTotal, riskFactorFlags, hv, hs]
    decide

/-- Witness for claim C2 at the concrete event of its second conjunct. -/
theorem risk_stage_score_and_factors_witness :
    risk_assessment_system ⟨0, 0⟩ ⟨0, 85⟩ (complianceChain ⟨0, 0⟩ ⟨0, 85⟩ initFlags) =
      { score := 85,
        factor_flags :=
          RISK_EU_ACT ||| RISK_GDPR ||| RISK_SENSITIVE_DATA ||| RISK_PUBLIC_MODEL } :=
  risk_stage_score_and_factors.2 ⟨0, 0⟩ ⟨0, 85⟩ rfl rfl (by decide)

/-- Claim C3: snapshot merge is associative and commutative over all scalar
counters and over the four fixed-size distributions, and it is element-wise
sum on them. -/
theorem merge_assoc_comm_elementwise (a b c : ComplianceMetrics) :
    scalarCounters ((a.merge b).merge c) = scalarCounters (a.merge (b.merge c)) ∧
    scalarCounters ((a.merge b).merge c) = scalarCounters (c.merge (a.merge b)) ∧
    (∀ i, ((a.merge b).merge c).service_counts i = (a.merge (b.merge c)).service_counts i) ∧
    (∀ i, ((a.merge b).merge c).vendor_counts i = (a.merge (b.merge c)).vendor_counts i) ∧
    (∀ i, ((a.merge b).merge c).department_counts i =
      (a.merge (b.merge c)).department_counts i) ∧
    (∀ i, ((a.merge b).merge c).risk_factor_counts i =
      (a.merge (b.merge c)).risk_factor_counts i) ∧
    (∀ i, ((a.merge b).merge c).service_counts i = (c.merge (a.merge b)).service_counts i) ∧
    (∀ i, ((a.merge b).merge c).vendor_counts i = (c.merge (a.merge b)).vendor_counts i) ∧
    (∀ i, ((a.merge b).merge c).department_counts i =
      (c.merge (a.merge b)).department_counts i) ∧
    (∀ i, ((a.merge b).merge c).risk_factor_counts i =
      (c.merge (a.merge b)).risk_factor_counts i) ∧
    scalarCounters (a.merge b) =
      (a.total_events + b.total_events,
       a.eu_act_violations + b.eu_act_violations,
       a.gdpr_violations + b.gdpr_violations,
       a.internal_violations + b.internal_violations,
       a.high_risk_count + b.high_risk_count,
       a.medium_risk_count + b.medium_risk_count,
       a.low_risk_count + b.low_risk_count,
       a.total_data_sensitivity + b.total_data_sensitivity,
       a.data_sensitivity_samples + b.data_sensitivity_samples) ∧
    (∀ i, (a.merge b).service_counts i = a.service_counts i + b.service_counts i) ∧
    (∀ i, (a.merge b).vendor_counts i = a.vendor_counts i + b.vendor_counts i) ∧
    (∀ i, (a.merge b).department_counts i = a.department_counts i + b.department_counts i) ∧
    (∀ i, (a.merge b).risk_factor_counts i =
      a.risk_factor_counts i + b.risk_factor_counts i) := by
  simp [scalarCounters, ComplianceMetrics.merge, Nat.add_comm, Nat.add_left_comm,
    Nat.add_assoc]

/-- Counterexample for claim C4 as stated: the claim quantifies over every
snapshot, but on a snapshot whose series already hold 31 entries one update
leaves 31 entries (beyond the bound 30), and on a snapshot whose rate series
already holds one entry the series after one append is not exactly the
appended values. -/
theorem historical_window_cex :
    (applyUpdates oversizedMetrics [(0, 1)]).historical_rates.length = 31 ∧
    ¬ (applyUpdates oversizedMetrics [(0, 1)]).historical_rates.length ≤ 30 ∧
    (applyUpdates preloadedMetrics [(0, 1)]).historical_rates = [(37 : ℚ), 0] ∧
    ratesOf [(0, 1)] = [(0 : ℚ)] ∧
    (applyUpdates preloadedMetrics [(0, 1)]).historical_rates ≠ ratesOf [(0, 1)] := by
  have e1 : applyUpdates oversizedMetrics [(0, 1)] =
      oversizedMetrics.update_historical_data 0 1 := rfl
  have e2 : applyUpdates preloadedMetrics [(0, 1)] =
      preloadedMetrics.update_historical_data 0 1 := rfl
  have h3 : (applyUpdates preloadedMetrics [(0, 1)]).historical_rates = [(37 : ℚ), 0] := by
    rw [e2, update_hist_rates]
    simp [preloadedMetrics, defaultMetrics]
  have h4 : ratesOf [(0, 1)] = [(0 : ℚ)] := by
    simp [ratesOf]
  refine ⟨?_, ?_, h3, h4, ?_⟩
  · rw [e1, update_hist_rates]
    simp [oversizedMetrics, defaultMetrics]
  · rw [e1, update_hist_rates]
    simp [oversizedMetrics, defaultMetrics]
  · rw [h3, h4]
    intro h
    simpa using congrArg List.length h

/-- Claim C4 as amended: for every snapshot whose historical series start
empty (as the aggregator's accumulator does), after any sequence of updates
each series is exactly the most recent `min n 30` appended values in append
order, so its length never exceeds 30. -/
theorem historical_window_bound (us : List (Nat × ℚ)) (m : ComplianceMetrics)
    (hr : m.historical_rates = []) (hv : m.historical_violations = []) :
    (applyUpdates m us).historical_rates = (ratesOf us).drop (us.length - 30) ∧
    (applyUpdates m us).historical_rates.length = min us.length 30 ∧
    (applyUpdates m us).historical_rates.length ≤ 30 ∧
    (applyUpdates m us).historical_violations =
      (List.replicate us.length
        (m.eu_act_violations, m.gdpr_violations, m.internal_violations)).drop
        (us.length - 30) ∧
    (applyUpdates m us).historical_violations.length = min us.length 30 ∧
    (applyUpdates m us).historical_violations.length ≤ 30 := by
  have h1 := applyUpdates_rates us m (by simp [hr])
  rw [hr] at h1
  simp only [List.nil_append, List.length_nil, Nat.zero_add] at h1
  have h2 := applyUpdates_viols us m (by simp [hv])
  rw [hv] at h2
  simp only [List.nil_append, List.length_nil, Nat.zero_add] at h2
  refine ⟨h1, ?_, ?_, h2, ?_, ?_⟩ <;>
    simp [h1, h2, ratesOf] <;> omega

/-- Witness for claim C4's amended theorem at one update on the default
snapshot. -/
theorem historical_window_bound_witness :
    (applyUpdates defaultMetrics [(0, 1)]).historical_rates =
      (ratesOf [(0, 1)]).drop ([((0 : Nat), (1 : ℚ))].length - 30) ∧
    (applyUpdates defaultMetrics [(0, 1)]).historical_rates.length =
      min [((0 : Nat), (1 : ℚ))].length 30 ∧
    (applyUpdates defaultMetrics [(0, 1)]).historical_rates.length ≤ 30 ∧
    (applyUpdates defaultMetrics [(0, 1)]).historical_violations =
      (List.replicate [((0 : Nat), (1 : ℚ))].length
        (defaultMetrics.eu_act_violations, defaultMetrics.gdpr_violations,
          defaultMetrics.internal_violations)).drop ([((0 : Nat), (1 : ℚ))].length - 30) ∧
    (applyUpdates defaultMetrics [(0, 1)]).historical_violations.length =
      min [((0 : Nat), (1 : ℚ))].length 30 ∧
    (applyUpdates defaultMetrics [(0, 1)]).historical_violations.length ≤ 30 :=
  historical_window_bound [(0, 1)] defaultMetrics rfl rfl

/-- Counterexample for claim C5 as stated: with the empty batches produced
when `events_per_batch` is 0 (which `main` computes for rate 50 and one
worker), the every-10th-cycle send at cycle 10 does happen and carries an
empty accumulator (`total_events = 0`). -/
theorem worker_flush_cex :
    events_per_batch 50 1 = 0 ∧ (10 % 10 = 0 ∧ 0 < 10) ∧
    (workerSent (fun _ => []) 10).map ComplianceMetrics.total_events = some 0 := by
  decide

/-- Claim C5 as amended: provided every generated batch is non-empty (batch
size at least 1), every periodic every-10th-cycle send carries a non-empty
accumulator, and immediately after the send the worker's accumulator is reset
to the empty snapshot. -/
theorem worker_flush_nonempty (batches : Nat → List (AIService × Usage)) (epb : Nat)
    (hlen : ∀ i, (batches i).length = epb)
    (hwf : ∀ i, ∀ r ∈ batches i, wfRaw r) (hepb : 1 ≤ epb)
    (n : Nat) (hpos : 0 < n) (hn : n % 10 = 0) :
    (∃ m, workerSent batches n = some m ∧ 0 < m.total_events) ∧
    workerAcc batches n = some defaultMetrics := by
  obtain ⟨m, hm, ht, hreset⟩ := workerSent_total batches epb hlen hwf n hpos hn
  refine ⟨⟨m, hm, ?_⟩, hreset⟩
  rw [ht]
  omega

/-- Witness for claim C5's amended theorem with singleton benign batches at
cycle 10. -/
theorem worker_flush_nonempty_witness :
    (∃ m, workerSent (fun _ => [benignRaw]) 10 = some m ∧ 0 < m.total_events) ∧
    workerAcc (fun _ => [benignRaw]) 10 = some defaultMetrics :=
  worker_flush_nonempty (fun _ => [benignRaw]) 1 (fun _ => rfl)
    (fun _ r hr => by rw [List.mem_singleton] at hr; subst hr; decide)
    (le_refl 1) 10 (by decide) (by decide)

/-- Counterexample for claim C6 as stated: rate 50 with one worker is
positive on both counts, yet the computed batch size is 0, not at least 1. -/
theorem events_per_batch_cex :
    0 < 50 ∧ 0 < 1 ∧ events_per_batch 50 1 = 0 ∧ ¬ 1 ≤ events_per_batch 50 1 := by
  decide

/-- Claim C6 as amended: for every positive rate and worker count the batch
size equals rate ÷ workers ÷ 100 in integer division, and it is at least 1
exactly when rate ÷ workers is at least 100 (no lower bound is enforced). -/
theorem events_per_batch_formula (rate thread_count : Nat)
    (hr : 0 < rate) (ht : 0 < thread_count) :
    events_per_batch rate thread_count = rate / thread_count / 100 ∧
    (1 ≤ events_per_batch rate thread_count ↔ 100 ≤ rate / thread_count) := by
  refine ⟨rfl, ?_⟩
  unfold events_per_batch events_per_thread
  generalize rate / thread_count = q
  omega

/-- Witness for claim C6's amended theorem at the default rate and 8
workers. -/
theorem events_per_batch_formula_witness :
    (events_per_batch 100000 8 = 100000 / 8 / 100 ∧
      (1 ≤ events_per_batch 100000 8 ↔ 100 ≤ 100000 / 8)) :=
  events_per_batch_formula 100000 8 (by decide) (by decide)

set_option maxRecDepth 10000 in
/-- Counterexample for claim C7 as stated: a batch of 100 benign events run
through the full chain yields total 100 but a risk-factor distribution
summing to 0, not 100. -/
theorem batch_distribution_cex :
    (processBatch (List.replicate 100 benignRaw)).map
        (fun m => (m.total_events, ∑ i, m.risk_factor_counts i)) = some (100, 0) ∧
    (0 : Nat) ≠ 100 := by
  constructor
  · decide
  · decide

/-- Claim C7 as amended: for every well-formed batch of 100 events run
through the full rule chain, the collected snapshot has total 100 and the
three identifier distributions (service, vendor, department) each sum to 100;
the risk-factor distribution is not included, as it sums to the number of
fired factors. -/
theorem batch_of_100_distributions (raw : List (AIService × Usage))
    (hw : ∀ r ∈ raw, wfRaw r) (hlen : raw.length = 100) :
    ∃ m, processBatch raw = some m ∧ m.total_events = 100 ∧
      (∑ i, m.service_counts i) = 100 ∧
      (∑ i, m.vendor_counts i) = 100 ∧
      (∑ i, m.department_counts i) = 100 := by
  obtain ⟨m, hm, h1, _, _, _, _, h5, h6, h7⟩ := processBatch_props raw hw
  rw [hlen] at h1 h5 h6 h7
  exact ⟨m, hm, h1, h5, h6, h7⟩

/-- Witness for claim C7's amended theorem on a concrete batch of 100
events. -/
theorem batch_of_100_distributions_witness :
    ∃ m, processBatch (List.replicate 100 benignRaw) = some m ∧ m.total_events = 100 ∧
      (∑ i, m.service_counts i) = 100 ∧
      (∑ i, m.vendor_counts i) = 100 ∧
      (∑ i, m.department_counts i) = 100 :=
  batch_of_100_distributions (List.replicate 100 benignRaw)
    (fun r hr => by rw [List.eq_of_mem_replicate hr]; decide) (by simp)

/-- Claim C8: `compliance_percentage` is exactly 100 when there are no
events, otherwise `100 * (1 - violations / (3 * total))`; in particular 10
events with 3 violations give exactly 90. -/
theorem compliance_percentage_spec :
    (∀ m : ComplianceMetrics, m.total_events = 0 → m.compliance_percentage = 100) ∧
    (∀ m : ComplianceMetrics, m.total_events ≠ 0 →
      m.compliance_percentage =
        100 * (1 -
          ((m.eu_act_violations + m.gdpr_violations + m.internal_violations : ℚ)) /
            (3 * (m.total_events : ℚ)))) ∧
    (∀ m : ComplianceMetrics, m.total_events = 10 →
      m.eu_act_violations + m.gdpr_violations + m.internal_violations = 3 →
      m.compliance_percentage = 90) := by
  refine ⟨?_, ?_, ?_⟩
  · intro m h
    simp [ComplianceMetrics.compliance_percentage, h]
  · intro m h
    simp only [ComplianceMetrics.compliance_percentage, if_neg h]
    push_cast
    ring_nf
  · intro m h1 h2
    simp only [ComplianceMetrics.compliance_percentage, h1]
    norm_num
    have h3 : ((m.eu_act_violations + m.gdpr_violations + m.internal_violations : Nat) : ℚ)
        = 3 := by exact_mod_cast congrArg Nat.cast h2
    push_cast at h3 ⊢
    rw [h3]
    norm_num

/-- Witness for claim C8 on the empty snapshot and on a snapshot with 10
events and 3 violations. -/
theorem compliance_percentage_spec_witness :
    defaultMetrics.compliance_percentage = 100 ∧
    tenEventMetrics.compliance_percentage = 90 :=
  ⟨compliance_percentage_spec.1 defaultMetrics rfl,
   compliance_percentage_spec.2.2 tenEventMetrics rfl rfl⟩

/-- Claim C9: on every world fully processed by the rule chain the collected
snapshot has its risk tiers summing to the total, and its three violation
counters equal to the first three risk-factor counters. -/
theorem collector_risk_invariants (raw : List (AIService × Usage))
    (hw : ∀ r ∈ raw, wfRaw r) :
    ∃ m, processBatch raw = some m ∧
      m.high_risk_count + m.medium_risk_count + m.low_risk_count = m.total_events ∧
      m.eu_act_violations = m.risk_factor_counts 0 ∧
      m.gdpr_violations = m.risk_factor_counts 1 ∧
      m.internal_violations = m.risk_factor_counts 2 := by
  obtain ⟨m, hm, _, h2, h3, h4, h5, _⟩ := processBatch_props raw hw
  exact ⟨m, hm, h2, h3, h4, h5⟩

/-- Witness for claim C9 on a singleton batch. -/
theorem collector_risk_invariants_witness :
    ∃ m, processBatch [benignRaw] = some m ∧
      m.high_risk_count + m.medium_risk_count + m.low_risk_count = m.total_events ∧
      m.eu_act_violations = m.risk_factor_counts 0 ∧
      m.gdpr_violations = m.risk_factor_counts 1 ∧
      m.internal_violations = m.risk_factor_counts 2 :=
  collector_risk_invariants [benignRaw]
    (fun r hr => by rw [List.mem_singleton] at hr; subst hr; decide)

/-- Claim C10: the unclamped risk score is bounded by 105 (so the 8-bit
accumulation in the risk stage never wraps: the mod-256 accumulation equals
the plain sum), and the final clamped score is always at most 100. -/
theorem risk_score_no_overflow (s : AIService) (u : Usage) (flags : Nat) :
    riskScoreTotal s u flags ≤ 105 ∧
    (risk_assessment_system s u flags).score = min (riskScoreTotal s u flags) 100 ∧
    (risk_assessment_system s u flags).score ≤ 100 := by
  refine ⟨?_, ?_, ?_⟩
  · unfold riskScoreTotal
    split_ifs <;> decide
  · rw [risk_assessment_eq]
  · rw [risk_assessment_eq]
    exact min_le_right _ _

end ECSAI
